import Mathlib

/-!
Shallow embedding of the run-orchestration engine of
`sasa_lammps/sasa_main.py`: the baseline computation (`Sasa._pre_calc`),
task construction and scheduling (`Sasa._exec_lammps_iterations`), and the
per-task worker (`Sasa._run_lmp`).

Python floats are carried as `Rat`: the orchestration code performs no
arithmetic on positions, rotations or energies (the only float operation is
`np.zeros + 1.000`, which is exact), so the carrier is exact.

The worker pool (`multiprocessing.Pool.starmap` with `chunksize=1`) is
modelled as sequential dispatch in submission order, with the worker's
`os.kill(parent_pid, SIGINT)` delivered synchronously to the parent: a task
failure interrupts `starmap` (the `KeyboardInterrupt` branch calls
`pool.terminate()`) before any further queued task is dispatched, and the
queued remainder is abandoned.  External collaborators (geometry generation,
neighbor finding, probe rotation, the file contents of the evaluator log)
enter as parameters, as the spec treats them.
-/

namespace SasaLammps

/-- Input-template name constant (from `sasa_lammps.constants`; the value is
an opaque file name). -/
def IN_PRE : String := "in.pre"

/-- Input-template name constant (from `sasa_lammps.constants`; the value is
an opaque file name). -/
def IN_TEMPLATE : String := "in.template"

/-- A rotation row as stored in the `rotations` array: index 0 is the
rotation angle `rotAng`, indices 1, 2, 3 are the rotation-axis components
`rotVecX`, `rotVecY`, `rotVecZ` (this index mapping is the one `_run_lmp`
uses when it builds the evaluator command line: `-var rotAng {rot[0]}
-var rotVecX {rot[1]} -var rotVecY {rot[2]} -var rotVecZ {rot[3]}`). -/
abbrev Rot := List Rat

/-- The rotation angle of a rotation row (`rot[0]` in `_run_lmp`). -/
def rotAng (rot : Rot) : Rat := rot.getD 0 0

/-- The rotation-axis vector of a rotation row
(`rot[1], rot[2], rot[3]` in `_run_lmp`). -/
def rotVec (rot : Rot) : List Rat := [rot.getD 1 0, rot.getD 2 0, rot.getD 3 0]

/-- The rotations used for a single-atom probe:
`self.rotations = np.zeros((n_probes, 4)); self.rotations[:, 1] += 1.000`
(`sasa_main.py`, lines 148-150).  Every row is `[0, 1, 0, 0]`. -/
def singleAtomRotations (nProbes : Nat) : List Rot :=
  List.replicate nProbes [0, 1, 0, 0]

/-- One element of the `run_iterable` list built in
`_exec_lammps_iterations`: the starmap argument tuple
`[IN_TEMPLATE, pos, rot, atom_number, res, e_mol, e_prob]` handed to
`_run_lmp` (the task descriptor of the spec). -/
structure LmpArgs where
  in_file : String
  pos : List Rat
  rot : Rot
  atom_number : Nat
  res : Int
  e_mol : Rat
  e_prob : Rat
deriving DecidableEq, Repr

/-- Default task value used only as the `getD` fallback in statements. -/
def dummyTask : LmpArgs :=
  { in_file := "", pos := [], rot := [], atom_number := 0, res := 0,
    e_mol := 0, e_prob := 0 }

/-- The `run_iterable` list of `_exec_lammps_iterations` (lines 152-157):
`[[IN_TEMPLATE, pos, rot, atom_number, res, e_mol, e_prob]
  for pos, res, rot in zip(self.sasa_positions, self.neighbors["res"],
  self.rotations)]`.
Python `zip` truncates to the shortest input, as does `List.zip`. -/
def run_iterable (sasa_positions : List (List Rat)) (res_list : List Int)
    (rotations : List Rot) (atom_number : Nat) (e_mol e_prob : Rat) :
    List LmpArgs :=
  (sasa_positions.zip (res_list.zip rotations)).map fun pr =>
    { in_file := IN_TEMPLATE, pos := pr.1, rot := pr.2.2,
      atom_number := atom_number, res := pr.2.1, e_mol := e_mol,
      e_prob := e_prob }

/-- Outcome of one `subprocess.run(cmd, ..., check=True, capture_output=True)`
call: exit status zero, or non-zero with the captured standard output and
standard error (the payload of the raised `CalledProcessError`). -/
inductive SubprocResult where
  | success
  | failure (stdout stderr : String)
deriving DecidableEq, Repr

/-- Whether the subprocess exited with non-zero status. -/
def isFail : SubprocResult → Bool
  | .success => false
  | .failure _ _ => true

/-- The externally observable effects of one `_run_lmp` call:
what it printed, whether it sent `SIGINT` to the parent process
(`os.kill(self.parent_pid, signal.SIGINT)`), whether an exception escaped
the call, and its return value. -/
structure WorkerEffect where
  printed : List String
  signaled : Bool
  raised : Bool
  ret : Int
deriving DecidableEq, Repr

/-- `Sasa._run_lmp` (lines 231-241): the evaluator subprocess is run with
`check=True`; on a non-zero exit the raised `CalledProcessError` is caught,
`exc.stdout` (only the captured standard output) is printed, `SIGINT` is sent
to the parent process, and the function falls through to `return 0`.  No
exception escapes in either case. -/
def run_lmp (r : SubprocResult) : WorkerEffect :=
  match r with
  | .success => { printed := [], signaled := false, raised := false, ret := 0 }
  | .failure out _ => { printed := [out], signaled := true, raised := false, ret := 0 }

/-- One entry of the output file `spec.xyz`: the header line written by the
orchestrator, or a result record appended by a successful evaluator
invocation (the evaluator writes its own row; the orchestrator never does). -/
inductive FileEntry where
  | header (line : String)
  | record (task : LmpArgs)
deriving DecidableEq, Repr

/-- Whether a file entry is the header line. -/
def FileEntry.isHeader : FileEntry → Bool
  | .header _ => true
  | .record _ => false

/-- Whether a file entry is a result record. -/
def FileEntry.isRecord : FileEntry → Bool
  | .header _ => false
  | .record _ => true

/-- Number of result records in a file. -/
def recordCount (f : List FileEntry) : Nat :=
  (f.filter FileEntry.isRecord).length

/-- Number of header lines in a file. -/
def headerCount (f : List FileEntry) : Nat :=
  (f.filter FileEntry.isHeader).length

/-- The result record a successful evaluator invocation appends to the
output file as a side effect; a failing invocation appends nothing. -/
def evalFileEffect (t : LmpArgs) : SubprocResult → List FileEntry
  | .success => [.record t]
  | .failure _ _ => []

/-- State of the scheduling loop: the output-file contents, the tasks
started so far in dispatch order, the diagnostic lines printed so far, and
whether `starmap` was interrupted (the `KeyboardInterrupt` branch, which
calls `pool.terminate()`). -/
structure ExecState where
  file : List FileEntry
  started : List LmpArgs
  printed : List String
  interrupted : Bool
deriving DecidableEq, Repr

/-- The pool loop of `_exec_lammps_iterations` (lines 161-171):
`pool.starmap(self._run_lmp, run_iterable, chunksize=1)` dispatches the
tasks one at a time in submission order; each worker call is `run_lmp`.
When a worker signals the parent (evaluator failure), the parent's
`starmap` is interrupted by the resulting `KeyboardInterrupt` and
`pool.terminate()` abandons the queued remainder; otherwise the loop
continues and the pool is closed after the last task. -/
def runTasks (evaluator : LmpArgs → SubprocResult) :
    List LmpArgs → ExecState → ExecState
  | [], st => st
  | t :: ts, st =>
    let r := evaluator t
    let eff := run_lmp r
    let st1 : ExecState :=
      { st with started := st.started ++ [t],
                file := st.file ++ evalFileEffect t r,
                printed := st.printed ++ eff.printed }
    if eff.signaled then { st1 with interrupted := true }
    else runTasks evaluator ts st1

/-- The header line written to `spec.xyz` (line 138):
`f"{n_probes}\natom\tx\ty\tz\tres\tetot/eV\teint/eV\n"`. -/
def headerLine (nProbes : Nat) : String :=
  toString nProbes ++ "\natom\tx\ty\tz\tres\tetot/eV\teint/eV\n"

/-- The task list `_exec_lammps_iterations` hands to the pool: the probe
rotations are `_rotate_probe`'s output when the probe molecule has more
than one atom (`_count_atoms_in_mol(...) > 1`), and `singleAtomRotations`
otherwise (lines 143-150). -/
def execTasks (nProbes nAtomsInMol : Nat) (sasa_positions : List (List Rat))
    (res_list : List Int) (probeRotations : List Rot) (atom_number : Nat)
    (e_mol e_prob : Rat) : List LmpArgs :=
  let rotations :=
    if nAtomsInMol > 1 then probeRotations else singleAtomRotations nProbes
  run_iterable sasa_positions res_list rotations atom_number e_mol e_prob

/-- Result of `_exec_lammps_iterations`: its final scheduling state plus its
return value (the function ends with `return 0` on every path). -/
structure ExecOutput where
  file : List FileEntry
  started : List LmpArgs
  printed : List String
  interrupted : Bool
  ret : Int
deriving DecidableEq, Repr

/-- `Sasa._exec_lammps_iterations` (lines 131-174): writes the header to the
freshly opened `spec.xyz`, chooses the rotations, builds `run_iterable`, runs
the pool, and returns 0.  `nProbes` is the caller-supplied probe count,
`nAtomsInMol` the probe-molecule atom count (`_count_atoms_in_mol`),
`probeRotations` the `_rotate_probe` output used for multi-atom probes, and
`evaluator` the behaviour of the external evaluator on each task. -/
def exec_lammps_iterations (evaluator : LmpArgs → SubprocResult)
    (nProbes nAtomsInMol : Nat) (sasa_positions : List (List Rat))
    (res_list : List Int) (probeRotations : List Rot) (atom_number : Nat)
    (e_mol e_prob : Rat) : ExecOutput :=
  let st := runTasks evaluator
    (execTasks nProbes nAtomsInMol sasa_positions res_list probeRotations
      atom_number e_mol e_prob)
    { file := [.header (headerLine nProbes)], started := [], printed := [],
      interrupted := false }
  { file := st.file, started := st.started, printed := st.printed,
    interrupted := st.interrupted, ret := 0 }

/-- Modelled from the spec: `_read_last_two(path, "etot")` lives in
`sasa_lammps.helper`, which is not part of the available source; per the
spec it "reads the two most-recently-produced energy values from the
evaluator's own log/output".  `log` is the sequence of energy values the
evaluator has produced, oldest first. -/
def read_last_two (log : List Rat) : Rat × Rat :=
  (log.getD (log.length - 2) 0, log.getD (log.length - 1) 0)

/-- Result of `_pre_calc`: the evaluator invocations it performed (template
name, position, rotation row of each), and the two baseline energies. -/
structure PreCalcOutput where
  invocations : List (String × List Rat × Rot)
  e_mol : Rat
  e_prob : Rat
deriving DecidableEq, Repr

/-- `Sasa._pre_calc` (lines 108-129): one call
`self._run_lmp(IN_PRE, [0.0, 0.0, 0.0], [0.0, 1.0, 0.0, 0.0])`, then
`e_mol, e_prob = _read_last_two(self.path, "etot")`.  `etotLog` is the
energy log the evaluator has produced by the time it is read. -/
def pre_calc (etotLog : List Rat) : PreCalcOutput :=
  let e := read_last_two etotLog
  { invocations := [(IN_PRE, ([0, 0, 0] : List Rat), ([0, 1, 0, 0] : Rot))],
    e_mol := e.1, e_prob := e.2 }

/-- An evaluator-facing event of a run, in program order: a baseline
evaluator invocation performed by `_pre_calc`, or the dispatch of one task
by the pool. -/
inductive Event where
  | baselineInvoked (in_file : String) (pos : List Rat) (rot : Rot)
  | taskDispatched (t : LmpArgs)
deriving DecidableEq, Repr

/-- Whether an event is a baseline evaluator invocation. -/
def Event.isBaseline : Event → Bool
  | .baselineInvoked _ _ _ => true
  | .taskDispatched _ => false

/-- Whether an event is a task dispatch. -/
def Event.isDispatch : Event → Bool
  | .baselineInvoked _ _ _ => false
  | .taskDispatched _ => true

/-- Result of `_process`: the ordered evaluator-facing event trace, the
scheduler output, and the baseline pair. -/
structure ProcessOutput where
  trace : List Event
  exec : ExecOutput
  baseline : Rat × Rat
deriving DecidableEq, Repr

/-- `Sasa._process` (lines 64-106), restricted to its evaluator-facing
steps: `_pre_calc` runs first, its energies are passed to
`_exec_lammps_iterations`, and `n_probes = len(self.sasa_positions)`.
The file-preparation steps (`gro2lammps`, `_check_files`,
`_write_params_file`, `_convert_data_file`) and the postprocessing calls
touch no evaluator and are omitted; `sasa_positions` (`_create_sasa_xyz`),
`res_list` (`self.neighbors["res"]` from `_neighbor_finder`),
`probeRotations` (`_rotate_probe`), `nAtomsInMol` and `atom_number` are the
external collaborators' outputs, passed in as parameters. -/
def process (evaluator : LmpArgs → SubprocResult) (etotLog : List Rat)
    (nAtomsInMol : Nat) (sasa_positions : List (List Rat))
    (res_list : List Int) (probeRotations : List Rot) (atom_number : Nat) :
    ProcessOutput :=
  let pre := pre_calc etotLog
  let nProbes := sasa_positions.length
  let ex := exec_lammps_iterations evaluator nProbes nAtomsInMol
    sasa_positions res_list probeRotations atom_number pre.e_mol pre.e_prob
  { trace := pre.invocations.map (fun i => .baselineInvoked i.1 i.2.1 i.2.2)
      ++ ex.started.map .taskDispatched,
    exec := ex,
    baseline := (pre.e_mol, pre.e_prob) }

/-- A concrete evaluator behaviour: every invocation exits with status 0. -/
def evalAlwaysOk : LmpArgs → SubprocResult := fun _ => .success

/-- A concrete evaluator behaviour: every invocation exits non-zero, with
fixed captured output streams. -/
def evalAlwaysFail : LmpArgs → SubprocResult :=
  fun _ => .failure "lammps diagnostic output" "lammps stderr"

/-- A concrete evaluator behaviour: the invocation for residue id 1 exits
non-zero, all others succeed. -/
def evalFailOnRes1 : LmpArgs → SubprocResult :=
  fun t =>
    if t.res = 1 then .failure "lammps diagnostic output" "lammps stderr"
    else .success

/-! ### Helper lemmas about the scheduling loop and the task builder -/

/-- One loop step on a task whose evaluator invocation succeeds: the
evaluator appends its record, the loop continues with the rest. -/
theorem runTasks_cons_success (E : LmpArgs → SubprocResult) (t : LmpArgs)
    (ts : List LmpArgs) (st : ExecState) (hEt : E t = .success) :
    runTasks E (t :: ts) st =
      runTasks E ts
        { st with started := st.started ++ [t],
                  file := st.file ++ [FileEntry.record t] } := by
  simp [runTasks, hEt, run_lmp, evalFileEffect]

/-- One loop step on a task whose evaluator invocation fails: no record is
appended, the captured standard output is printed, and the parent's
`starmap` is interrupted; no further task is taken from the queue. -/
theorem runTasks_cons_failure (E : LmpArgs → SubprocResult) (t : LmpArgs)
    (ts : List LmpArgs) (st : ExecState) (o e : String)
    (hEt : E t = .failure o e) :
    runTasks E (t :: ts) st =
      { st with started := st.started ++ [t],
                printed := st.printed ++ [o],
                interrupted := true } := by
  simp [runTasks, hEt, run_lmp, evalFileEffect]

/-- If every task's evaluator invocation succeeds, the loop runs the whole
list: one record per task is appended, every task is started in order, no
diagnostic is printed and the pool is not interrupted. -/
theorem runTasks_success (E : LmpArgs → SubprocResult) (ts : List LmpArgs) :
    ∀ st : ExecState, (∀ t ∈ ts, isFail (E t) = false) →
      runTasks E ts st =
        { st with file := st.file ++ ts.map FileEntry.record,
                  started := st.started ++ ts } := by
  induction ts with
  | nil => intro st _; simp [runTasks]
  | cons t ts ih =>
    intro st h
    have ht : isFail (E t) = false := h t (by simp)
    cases hEt : E t with
    | success =>
      rw [runTasks_cons_success E t ts st hEt,
        ih _ (fun u hu => h u (by simp [hu]))]
      simp
    | failure o e => rw [hEt] at ht; simp [isFail] at ht

/-- If the evaluator fails first at task `b` (all of `a` before it succeed),
the loop appends exactly the records of `a`, starts exactly `a ++ [b]`,
prints the failing invocation's captured standard output, and is
interrupted; the queued remainder `c` is never started. -/
theorem runTasks_firstFail (E : LmpArgs → SubprocResult) (a : List LmpArgs)
    (b : LmpArgs) (c : List LmpArgs) :
    ∀ st : ExecState, (∀ t ∈ a, isFail (E t) = false) → isFail (E b) = true →
      runTasks E (a ++ b :: c) st =
        { file := st.file ++ a.map FileEntry.record,
          started := st.started ++ a ++ [b],
          printed := st.printed ++ (run_lmp (E b)).printed,
          interrupted := true } := by
  induction a with
  | nil =>
    intro st _ hb
    cases hEb : E b with
    | success => rw [hEb] at hb; simp [isFail] at hb
    | failure o e =>
      rw [List.nil_append, runTasks_cons_failure E b c st o e hEb]
      simp [run_lmp, hEb]
  | cons t a ih =>
    intro st ha hb
    have ht : isFail (E t) = false := ha t (by simp)
    cases hEt : E t with
    | success =>
      rw [List.cons_append, runTasks_cons_success E t (a ++ b :: c) st hEt,
        ih _ (fun u hu => ha u (by simp [hu])) hb]
      simp [List.append_assoc]
    | failure o e => rw [hEt] at ht; simp [isFail] at ht

/-- A task list containing a failing task splits as `a ++ b :: c` with `b`
the first failing task. -/
theorem exists_first_fail (E : LmpArgs → SubprocResult) :
    ∀ ts : List LmpArgs, (∃ t ∈ ts, isFail (E t) = true) →
      ∃ a b c, ts = a ++ b :: c ∧ (∀ t ∈ a, isFail (E t) = false) ∧
        isFail (E b) = true := by
  intro ts
  induction ts with
  | nil => intro h; simp at h
  | cons t ts ih =>
    intro h
    cases hEt : isFail (E t) with
    | true => exact ⟨[], t, ts, rfl, by simp, hEt⟩
    | false =>
      have h2 : ∃ u ∈ ts, isFail (E u) = true := by
        obtain ⟨u, hu, hfu⟩ := h
        rcases List.mem_cons.mp hu with rfl | hu2
        · rw [hEt] at hfu; exact absurd hfu (by simp)
        · exact ⟨u, hu2, hfu⟩
      obtain ⟨a, b, c, hsplit, ha, hb⟩ := ih h2
      refine ⟨t :: a, b, c, by rw [hsplit, List.cons_append], ?_, hb⟩
      intro u hu
      rcases List.mem_cons.mp hu with rfl | hu2
      · exact hEt
      · exact ha u hu2

/-- The loop only ever appends result records to the output file. -/
theorem runTasks_file_extends (E : LmpArgs → SubprocResult)
    (ts : List LmpArgs) : ∀ st : ExecState,
    ∃ recs, (runTasks E ts st).file = st.file ++ recs ∧
      ∀ x ∈ recs, x.isRecord = true := by
  induction ts with
  | nil => intro st; exact ⟨[], by simp [runTasks], by simp⟩
  | cons t ts ih =>
    intro st
    cases hEt : E t with
    | success =>
      rw [runTasks_cons_success E t ts st hEt]
      obtain ⟨recs, h1, h2⟩ := ih
        { st with started := st.started ++ [t],
                  file := st.file ++ [FileEntry.record t] }
      refine ⟨FileEntry.record t :: recs, ?_, ?_⟩
      · rw [h1]; simp
      · intro x hx
        rcases List.mem_cons.mp hx with rfl | hx2
        · rfl
        · exact h2 x hx2
    | failure o e =>
      rw [runTasks_cons_failure E t ts st o e hEt]
      exact ⟨[], by simp, by simp⟩

/-- Every task the loop starts was in its initial `started` list or in the
submitted task list. -/
theorem runTasks_started_mem (E : LmpArgs → SubprocResult)
    (ts : List LmpArgs) : ∀ (st : ExecState) (t : LmpArgs),
    t ∈ (runTasks E ts st).started → t ∈ st.started ∨ t ∈ ts := by
  induction ts with
  | nil => intro st t h; exact Or.inl (by simpa [runTasks] using h)
  | cons u ts ih =>
    intro st t h
    cases hEu : E u with
    | success =>
      rw [runTasks_cons_success E u ts st hEu] at h
      rcases ih _ t h with h2 | h2
      · rcases List.mem_append.mp h2 with h3 | h3
        · exact Or.inl h3
        · exact Or.inr (by simpa using List.mem_cons.mpr (Or.inl (by simpa using h3)))
      · exact Or.inr (List.mem_cons.mpr (Or.inr h2))
    | failure o e =>
      rw [runTasks_cons_failure E u ts st o e hEu] at h
      rcases List.mem_append.mp h with h3 | h3
      · exact Or.inl h3
      · exact Or.inr (by simpa using List.mem_cons.mpr (Or.inl (by simpa using h3)))

/-- Every task built by `run_iterable` carries the template name, the atom
count and the baseline energy pair it was given. -/
theorem mem_run_iterable_fields (P : List (List Rat)) (R : List Int)
    (Q : List Rot) (an : Nat) (em ep : Rat) (t : LmpArgs)
    (ht : t ∈ run_iterable P R Q an em ep) :
    t.in_file = IN_TEMPLATE ∧ t.atom_number = an ∧ t.e_mol = em ∧
      t.e_prob = ep := by
  obtain ⟨pr, _, rfl⟩ := List.mem_map.mp ht
  exact ⟨rfl, rfl, rfl, rfl⟩

/-- Every task built by `run_iterable` takes its rotation row from the
rotation input sequence. -/
theorem mem_run_iterable_rot (P : List (List Rat)) (R : List Int)
    (Q : List Rot) (an : Nat) (em ep : Rat) (t : LmpArgs)
    (ht : t ∈ run_iterable P R Q an em ep) : t.rot ∈ Q := by
  obtain ⟨pr, hpr, rfl⟩ := List.mem_map.mp ht
  obtain ⟨x, yz⟩ := pr
  obtain ⟨y, z⟩ := yz
  exact ((List.of_mem_zip ((List.of_mem_zip hpr).2)).2)

/-- The `i`-th task built by `run_iterable` is assembled from the `i`-th
elements of the three input sequences. -/
theorem run_iterable_getD (an : Nat) (em ep : Rat) :
    ∀ (P : List (List Rat)) (R : List Int) (Q : List Rot) (i : Nat),
      i < (run_iterable P R Q an em ep).length →
      (run_iterable P R Q an em ep).getD i dummyTask =
        { in_file := IN_TEMPLATE, pos := P.getD i [], rot := Q.getD i [],
          atom_number := an, res := R.getD i 0, e_mol := em,
          e_prob := ep } := by
  intro P
  induction P with
  | nil => intro R Q i h; simp [run_iterable] at h
  | cons p P ih =>
    intro R Q i h
    cases R with
    | nil => simp [run_iterable] at h
    | cons r R =>
      cases Q with
      | nil => simp [run_iterable] at h
      | cons q Q =>
        cases i with
        | zero => simp [run_iterable]
        | succ i =>
          have h2 : i < (run_iterable P R Q an em ep).length := by
            simpa [run_iterable] using h
          have := ih R Q i h2
          simpa [run_iterable] using this

/-- Result records pass the `isRecord` filter untouched. -/
theorem filter_isRecord_map_record (l : List LmpArgs) :
    (l.map FileEntry.record).filter FileEntry.isRecord
      = l.map FileEntry.record := by
  induction l with
  | nil => rfl
  | cons t l ih => simp [FileEntry.isRecord, ih]

/-- A file consisting of the header followed by the records of `l` holds
exactly `l.length` result records. -/
theorem recordCount_header_records (h : String) (l : List LmpArgs) :
    recordCount (FileEntry.header h :: l.map FileEntry.record)
      = l.length := by
  simp [recordCount, List.filter, FileEntry.isRecord,
    filter_isRecord_map_record]

/-- Reading any position of a dispatch-only event list (against a dispatch
default) never yields a baseline event. -/
theorem getD_map_taskDispatched_isBaseline (l : List LmpArgs) (k : Nat) :
    ((l.map Event.taskDispatched).getD k
      (Event.taskDispatched dummyTask)).isBaseline = false := by
  rw [List.getD_eq_getElem?_getD, List.getElem?_map]
  cases h : l[k]? <;> simp [Event.isBaseline]

/-- For a single-atom probe every built task's rotation row is the
hard-coded `[0, 1, 0, 0]`. -/
theorem single_atom_task_rot (np nm : Nat) (P : List (List Rat))
    (R : List Int) (Q : List Rot) (an : Nat) (em ep : Rat) (t : LmpArgs)
    (hnm : nm ≤ 1) (ht : t ∈ execTasks np nm P R Q an em ep) :
    t.rot = [0, 1, 0, 0] := by
  have hgt : ¬ nm > 1 := by omega
  simp only [execTasks, if_neg hgt, singleAtomRotations] at ht
  exact List.eq_of_mem_replicate (mem_run_iterable_rot _ _ _ _ _ _ _ ht)

/-- Appending files adds their header counts. -/
theorem headerCount_append (x y : List FileEntry) :
    headerCount (x ++ y) = headerCount x + headerCount y := by
  simp [headerCount, List.filter_append]

/-- A file of result records only contains no header line. -/
theorem headerCount_eq_zero_of_records (recs : List FileEntry)
    (h : ∀ x ∈ recs, x.isRecord = true) : headerCount recs = 0 := by
  induction recs with
  | nil => rfl
  | cons x recs ih =>
    have hx := h x (by simp)
    cases x with
    | header s => simp [FileEntry.isRecord] at hx
    | record t =>
      have : headerCount (FileEntry.record t :: recs) = headerCount recs := by
        simp [headerCount, List.filter_cons, FileEntry.isHeader]
      rw [this]
      exact ih (fun y hy => h y (by simp [hy]))

/-! ### Claims -/

/-- C2 (counterexample): with a position sequence of length 2 but residue
and orientation sequences of length 1, no fatal precondition failure is
raised before dispatch: the run proceeds and dispatches the single
zip-truncated task, is never interrupted, and returns 0 normally —
contradicting the claim that the run does not proceed with a truncated
task list. -/
theorem misaligned_inputs_no_error :
    (process evalAlwaysOk [1, 2] 2 [[0, 0, 0], [1, 1, 1]] [7]
        [[0, 1, 0, 0]] 5).exec.started.length = 1 ∧
    (process evalAlwaysOk [1, 2] 2 [[0, 0, 0], [1, 1, 1]] [7]
        [[0, 1, 0, 0]] 5).exec.interrupted = false ∧
    (process evalAlwaysOk [1, 2] 2 [[0, 0, 0], [1, 1, 1]] [7]
        [[0, 1, 0, 0]] 5).exec.ret = 0 := by
  refine ⟨by decide, by decide, by decide⟩

/-- C2 (amended): if the three input sequences (positions, residue ids,
orientations) given to the task builder do not all have equal length, no
error is raised: the task list is silently truncated to the shortest of
the three lengths (Python `zip` semantics) and the run proceeds with the
truncated task list. -/
theorem build_tasks_truncates_to_shortest (P : List (List Rat))
    (R : List Int) (Q : List Rot) (an : Nat) (em ep : Rat) :
    (run_iterable P R Q an em ep).length
      = min P.length (min R.length Q.length) := by
  simp [run_iterable, List.length_zip]

/-- C3: for all equal-length input sequences of positions, residues, and
orientations, the task builder produces a task sequence of the same
length, whose i-th task takes its position, residue id and orientation
from the i-th elements of the respective inputs, and every task carries
the same template name, atom count and baseline energy pair; submission
order equals input order (the i-th built task is the i-th submitted). -/
theorem build_tasks_elementwise (P : List (List Rat)) (R : List Int)
    (Q : List Rot) (an : Nat) (em ep : Rat)
    (h1 : P.length = R.length) (h2 : R.length = Q.length) :
    (run_iterable P R Q an em ep).length = P.length ∧
    ∀ i, i < P.length →
      (run_iterable P R Q an em ep).getD i dummyTask =
        { in_file := IN_TEMPLATE, pos := P.getD i [], rot := Q.getD i [],
          atom_number := an, res := R.getD i 0, e_mol := em,
          e_prob := ep } := by
  have hlen : (run_iterable P R Q an em ep).length = P.length := by
    simp [run_iterable, List.length_zip, ← h2, ← h1]
  exact ⟨hlen, fun i hi =>
    run_iterable_getD an em ep P R Q i (by rw [hlen]; exact hi)⟩

/-- Witness for C3 at a concrete input of length 2. -/
theorem build_tasks_elementwise_witness :
    (run_iterable [[1, 2, 3], [4, 5, 6]] [7, 8] [[0, 1, 0, 0], [9, 0, 0, 1]]
        5 10 20).length = 2 ∧
    ∀ i, i < 2 →
      (run_iterable [[1, 2, 3], [4, 5, 6]] [7, 8]
          [[0, 1, 0, 0], [9, 0, 0, 1]] 5 10 20).getD i dummyTask =
        { in_file := IN_TEMPLATE,
          pos := [[1, 2, 3], [4, 5, 6]].getD i [],
          rot := [[0, 1, 0, 0], [9, 0, 0, 1]].getD i [],
          atom_number := 5, res := [(7 : Int), 8].getD i 0, e_mol := 10,
          e_prob := 20 } := by
  have h := build_tasks_elementwise [[1, 2, 3], [4, 5, 6]] [7, 8]
    [[0, 1, 0, 0], [9, 0, 0, 1]] 5 10 20 (by decide) (by decide)
  simpa using h

/-- C4 (counterexample): for a single-atom probe the one built task's
rotation axis is `(1, 0, 0)`, not `(0, 1, 0)` as claimed (the hard-coded
row is `[0, 1, 0, 0]` and `_run_lmp` reads the axis from indices 1..3). -/
theorem single_atom_axis_not_e2 :
    (execTasks 1 1 [[0, 0, 0]] [0] [] 1 0 0).length = 1 ∧
    rotVec ((execTasks 1 1 [[0, 0, 0]] [0] [] 1 0 0).getD 0 dummyTask).rot
      = [1, 0, 0] ∧
    rotVec ((execTasks 1 1 [[0, 0, 0]] [0] [] 1 0 0).getD 0 dummyTask).rot
      ≠ [0, 1, 0] := by
  refine ⟨by decide, by decide, by decide⟩

/-- C4 (amended): when the probe molecule is a single-atom probe, every
task is paired with the degenerate default orientation with angle 0 and
rotation axis (1, 0, 0). -/
theorem single_atom_default_orientation (np nm : Nat)
    (P : List (List Rat)) (R : List Int) (Q : List Rot) (an : Nat)
    (em ep : Rat) (t : LmpArgs) (hnm : nm ≤ 1)
    (ht : t ∈ execTasks np nm P R Q an em ep) :
    rotAng t.rot = 0 ∧ rotVec t.rot = [1, 0, 0] := by
  rw [single_atom_task_rot np nm P R Q an em ep t hnm ht]
  exact ⟨rfl, rfl⟩

/-- Witness for the amended C4 on a concrete single-atom run. -/
theorem single_atom_default_orientation_witness :
    rotAng ((execTasks 1 1 [[0, 0, 0]] [0] [] 1 0 0).getD 0 dummyTask).rot
      = 0 ∧
    rotVec ((execTasks 1 1 [[0, 0, 0]] [0] [] 1 0 0).getD 0 dummyTask).rot
      = [1, 0, 0] :=
  single_atom_default_orientation 1 1 [[0, 0, 0]] [0] [] 1 0 0
    ((execTasks 1 1 [[0, 0, 0]] [0] [] 1 0 0).getD 0 dummyTask)
    (by decide) (by decide)

/-- C5: for a single-atom probe, every orientation produced by the task
builder has a non-zero rotation axis vector, so the evaluator's rejection
of a zero axis vector is avoided by construction, regardless of the number
of sample points. -/
theorem single_atom_axis_nonzero (np nm : Nat) (P : List (List Rat))
    (R : List Int) (Q : List Rot) (an : Nat) (em ep : Rat) (t : LmpArgs)
    (hnm : nm ≤ 1) (ht : t ∈ execTasks np nm P R Q an em ep) :
    rotVec t.rot ≠ [0, 0, 0] := by
  rw [single_atom_task_rot np nm P R Q an em ep t hnm ht]
  decide

/-- Witness for C5 on a concrete single-atom run with two sample points. -/
theorem single_atom_axis_nonzero_witness :
    rotVec ((execTasks 2 1 [[0, 0, 0], [1, 1, 1]] [0, 3] [] 1 0 0).getD 1
      dummyTask).rot ≠ [0, 0, 0] :=
  single_atom_axis_nonzero 2 1 [[0, 0, 0], [1, 1, 1]] [0, 3] [] 1 0 0
    ((execTasks 2 1 [[0, 0, 0], [1, 1, 1]] [0, 3] [] 1 0 0).getD 1
      dummyTask)
    (by decide) (by decide)

/-- C1: if any one dispatched task's evaluator invocation exits with
non-zero status, the whole run is aborted: the pool is interrupted
(`pool.terminate()`), the queued tasks after the first failing one are
never started (the started tasks are exactly the submission-order prefix
up to and including the failure, each dispatched once — no retry), fewer
result records are completed than tasks were submitted, and the failure's
diagnostic output is printed, never swallowed. -/
theorem evaluator_failure_aborts_run (E : LmpArgs → SubprocResult)
    (np nm : Nat) (P : List (List Rat)) (R : List Int) (Q : List Rot)
    (an : Nat) (em ep : Rat)
    (hfail : ∃ t ∈ execTasks np nm P R Q an em ep, isFail (E t) = true) :
    ∃ a b c, execTasks np nm P R Q an em ep = a ++ b :: c ∧
      (∀ t ∈ a, isFail (E t) = false) ∧ isFail (E b) = true ∧
      (exec_lammps_iterations E np nm P R Q an em ep).interrupted = true ∧
      (exec_lammps_iterations E np nm P R Q an em ep).started = a ++ [b] ∧
      recordCount (exec_lammps_iterations E np nm P R Q an em ep).file
        = a.length ∧
      a.length < (execTasks np nm P R Q an em ep).length ∧
      (exec_lammps_iterations E np nm P R Q an em ep).printed ≠ [] := by
  obtain ⟨a, b, c, hsplit, ha, hb⟩ := exists_first_fail E _ hfail
  have hrun := runTasks_firstFail E a b c
    { file := [FileEntry.header (headerLine np)], started := [],
      printed := [], interrupted := false } ha hb
  have hexec : exec_lammps_iterations E np nm P R Q an em ep =
      { file := [FileEntry.header (headerLine np)] ++ a.map FileEntry.record,
        started := [] ++ a ++ [b],
        printed := [] ++ (run_lmp (E b)).printed,
        interrupted := true, ret := 0 } := by
    simp only [exec_lammps_iterations]
    rw [hsplit, hrun]
  have hprint : (run_lmp (E b)).printed ≠ [] := by
    cases hEb : E b with
    | success => rw [hEb] at hb; simp [isFail] at hb
    | failure o e => simp [run_lmp]
  refine ⟨a, b, c, hsplit, ha, hb, ?_, ?_, ?_, ?_, ?_⟩
  · rw [hexec]
  · rw [hexec]; simp
  · rw [hexec]
    simpa using recordCount_header_records (headerLine np) a
  · rw [hsplit]
    simp only [List.length_append, List.length_cons]
    omega
  · rw [hexec]
    simpa using hprint

/-- Witness for C1: three tasks, the second one's evaluator invocation
fails; the run is interrupted with one record and the third task is never
started. -/
theorem evaluator_failure_aborts_run_witness :
    ∃ a b c,
      execTasks 3 1 [[0, 0, 0], [1, 0, 0], [2, 0, 0]] [0, 1, 2] [] 4 0 0
        = a ++ b :: c ∧
      (∀ t ∈ a, isFail (evalFailOnRes1 t) = false) ∧
      isFail (evalFailOnRes1 b) = true ∧
      (exec_lammps_iterations evalFailOnRes1 3 1
        [[0, 0, 0], [1, 0, 0], [2, 0, 0]] [0, 1, 2] [] 4 0 0).interrupted
        = true ∧
      (exec_lammps_iterations evalFailOnRes1 3 1
        [[0, 0, 0], [1, 0, 0], [2, 0, 0]] [0, 1, 2] [] 4 0 0).started
        = a ++ [b] ∧
      recordCount (exec_lammps_iterations evalFailOnRes1 3 1
        [[0, 0, 0], [1, 0, 0], [2, 0, 0]] [0, 1, 2] [] 4 0 0).file
        = a.length ∧
      a.length < (execTasks 3 1 [[0, 0, 0], [1, 0, 0], [2, 0, 0]]
        [0, 1, 2] [] 4 0 0).length ∧
      (exec_lammps_iterations evalFailOnRes1 3 1
        [[0, 0, 0], [1, 0, 0], [2, 0, 0]] [0, 1, 2] [] 4 0 0).printed
        ≠ [] :=
  evaluator_failure_aborts_run evalFailOnRes1 3 1
    [[0, 0, 0], [1, 0, 0], [2, 0, 0]] [0, 1, 2] [] 4 0 0 (by decide)

/-- C6: the output file's header line `headerLine n_probes` (with
`n_probes` the number of sample positions) is written exactly once,
before any result record, independent of the task count; with zero
retained sample points the file contains only `headerLine 0`. -/
theorem header_written_once (E : LmpArgs → SubprocResult) (log : List Rat)
    (nm : Nat) (P : List (List Rat)) (R : List Int) (Q : List Rot)
    (an : Nat) :
    (P = [] → (process E log nm P R Q an).exec.file
        = [FileEntry.header (headerLine 0)]) ∧
    ∃ recs, (process E log nm P R Q an).exec.file
        = FileEntry.header (headerLine P.length) :: recs ∧
      (∀ x ∈ recs, x.isRecord = true) ∧
      headerCount (process E log nm P R Q an).exec.file = 1 := by
  have hfile : (process E log nm P R Q an).exec.file =
      (runTasks E (execTasks P.length nm P R Q an (pre_calc log).e_mol
          (pre_calc log).e_prob)
        { file := [FileEntry.header (headerLine P.length)], started := [],
          printed := [], interrupted := false }).file := by
    simp [process, exec_lammps_iterations]
  obtain ⟨recs, h1, h2⟩ := runTasks_file_extends E
    (execTasks P.length nm P R Q an (pre_calc log).e_mol
      (pre_calc log).e_prob)
    { file := [FileEntry.header (headerLine P.length)], started := [],
      printed := [], interrupted := false }
  constructor
  · intro hP
    subst hP
    have hempty : execTasks (List.length ([] : List (List Rat))) nm []
        R Q an (pre_calc log).e_mol (pre_calc log).e_prob = [] := by
      simp [execTasks, run_iterable]
    rw [hfile, hempty]
    simp [runTasks]
  · refine ⟨recs, ?_, h2, ?_⟩
    · rw [hfile, h1]
      rfl
    · rw [hfile, h1]
      have h0 : headerCount recs = 0 := headerCount_eq_zero_of_records recs h2
      have hsingle : headerCount [FileEntry.header (headerLine P.length)]
          = 1 := rfl
      calc headerCount
            ({ file := [FileEntry.header (headerLine P.length)],
               started := [], printed := [],
               interrupted := false : ExecState }.file ++ recs)
          = 1 + 0 := by rw [headerCount_append, h0, hsingle]
        _ = 1 := rfl

/-- Witness for C6: zero retained sample points produce a header-only
file with header `headerLine 0`. -/
theorem header_written_once_witness :
    (process evalAlwaysOk [] 1 [] [] [] 0).exec.file
      = [FileEntry.header (headerLine 0)] :=
  (header_written_once evalAlwaysOk [] 1 [] [] [] 0).1 rfl

/-- C7 (counterexample): `_pre_calc` performs exactly one evaluator
invocation, not two: at the concrete log `[1, 2]` the invocation count is
1, contradicting the claim of exactly two invocations. -/
theorem pre_calc_not_two_invocations :
    (pre_calc [1, 2]).invocations.length = 1 ∧
    (pre_calc [1, 2]).invocations.length ≠ 2 := by
  refine ⟨rfl, by decide⟩

/-- C7 (amended): the baseline computation invokes the external evaluator
exactly once — a single invocation with the pre-run template, zero
position and the fixed rotation row `[0, 1, 0, 0]`, which covers both the
isolated macromolecule and the isolated probe — before reading the two
most-recently-produced energy values from the evaluator's output. -/
theorem pre_calc_single_invocation (log : List Rat) :
    (pre_calc log).invocations
      = [(IN_PRE, ([0, 0, 0] : List Rat), ([0, 1, 0, 0] : Rot))] ∧
    (pre_calc log).invocations.length = 1 ∧
    (pre_calc log).e_mol = (read_last_two log).1 ∧
    (pre_calc log).e_prob = (read_last_two log).2 :=
  ⟨rfl, rfl, rfl, rfl⟩

/-- C8 (counterexample): the scheduler's returned value does not
distinguish a completed run from an aborted one: on the same inputs, an
always-failing evaluator leaves the run interrupted and an always
succeeding one leaves it completed, yet the returned value is identical
(0) in both cases, so a caller cannot tell which occurred from the
returned value. -/
theorem run_outcome_indistinguishable :
    (exec_lammps_iterations evalAlwaysFail 1 1 [[0, 0, 0]] [0] [] 1 0 0).interrupted
      = true ∧
    (exec_lammps_iterations evalAlwaysOk 1 1 [[0, 0, 0]] [0] [] 1 0 0).interrupted
      = false ∧
    (exec_lammps_iterations evalAlwaysFail 1 1 [[0, 0, 0]] [0] [] 1 0 0).ret
      = (exec_lammps_iterations evalAlwaysOk 1 1 [[0, 0, 0]] [0] [] 1 0 0).ret := by
  refine ⟨by decide, by decide, by decide⟩

/-- C8 (amended): the execution scheduler returns 0 on every path — after
a graceful pool close and after a failure-triggered `pool.terminate()`
alike — so the two outcomes are distinguishable only through side effects
(the interrupted pool, the printed diagnostics, the shorter output file),
not through the returned value. -/
theorem exec_returns_zero (E : LmpArgs → SubprocResult) (np nm : Nat)
    (P : List (List Rat)) (R : List Int) (Q : List Rot) (an : Nat)
    (em ep : Rat) :
    (exec_lammps_iterations E np nm P R Q an em ep).ret = 0 := rfl

/-- C9: in every run, the baseline computation (both baseline energies
read) happens strictly before every task dispatch: every baseline event
precedes every dispatch event in the trace, and every dispatched task
already carries both baseline energy values. -/
theorem baseline_before_dispatch (E : LmpArgs → SubprocResult)
    (log : List Rat) (nm : Nat) (P : List (List Rat)) (R : List Int)
    (Q : List Rot) (an : Nat) (i j : Nat)
    (hi : i < (process E log nm P R Q an).trace.length)
    (hj : j < (process E log nm P R Q an).trace.length)
    (hbase : ((process E log nm P R Q an).trace.getD i
      (Event.taskDispatched dummyTask)).isBaseline = true)
    (hdisp : ((process E log nm P R Q an).trace.getD j
      (Event.taskDispatched dummyTask)).isDispatch = true) :
    i < j ∧ ∀ t ∈ (process E log nm P R Q an).exec.started,
      t.e_mol = (process E log nm P R Q an).baseline.1 ∧
      t.e_prob = (process E log nm P R Q an).baseline.2 := by
  have htr : (process E log nm P R Q an).trace =
      Event.baselineInvoked IN_PRE [0, 0, 0] [0, 1, 0, 0] ::
        (process E log nm P R Q an).exec.started.map
          Event.taskDispatched := by
    simp [process, pre_calc, exec_lammps_iterations]
  constructor
  · have hi0 : i = 0 := by
      by_contra hne
      obtain ⟨i2, rfl⟩ : ∃ i2, i = i2 + 1 := ⟨i - 1, by omega⟩
      rw [htr, List.getD_cons_succ,
        getD_map_taskDispatched_isBaseline] at hbase
      exact Bool.false_ne_true hbase
    have hj0 : j ≠ 0 := by
      intro h0
      rw [h0, htr, List.getD_cons_zero] at hdisp
      simp [Event.isDispatch] at hdisp
    omega
  · intro t ht
    have hst : (process E log nm P R Q an).exec.started =
        (runTasks E (execTasks P.length nm P R Q an (pre_calc log).e_mol
            (pre_calc log).e_prob)
          { file := [FileEntry.header (headerLine P.length)],
            started := [], printed := [],
            interrupted := false }).started := by
      simp [process, exec_lammps_iterations]
    rw [hst] at ht
    rcases runTasks_started_mem E _ _ t ht with h0 | h0
    · simp at h0
    · simp only [execTasks] at h0
      have hf := mem_run_iterable_fields _ _ _ _ _ _ t h0
      exact ⟨hf.2.2.1, hf.2.2.2⟩

/-- Witness for C9: a concrete run with one sample point; the baseline
event at index 0 precedes the dispatch event at index 1 and the dispatched
task carries the baseline pair. -/
theorem baseline_before_dispatch_witness :
    0 < 1 ∧ ∀ t ∈ (process evalAlwaysOk [3, 4] 1 [[0, 0, 0]] [2] []
        1).exec.started,
      t.e_mol = (process evalAlwaysOk [3, 4] 1 [[0, 0, 0]] [2] []
        1).baseline.1 ∧
      t.e_prob = (process evalAlwaysOk [3, 4] 1 [[0, 0, 0]] [2] []
        1).baseline.2 :=
  baseline_before_dispatch evalAlwaysOk [3, 4] 1 [[0, 0, 0]] [2] [] 1 0 1
    (by decide) (by decide) (by decide) (by decide)

/-- C10: a failed evaluator invocation never raises an exception out of
`_run_lmp`: the non-zero-exit error is caught inside the worker, only the
captured standard output of the failing invocation is printed (never the
standard error), `SIGINT` is sent to the parent process as the only
failure signal, and the worker returns 0 normally; no call of `_run_lmp`
lets an exception escape. -/
theorem worker_failure_contained (out err : String) :
    run_lmp (SubprocResult.failure out err)
      = { printed := [out], signaled := true, raised := false, ret := 0 } ∧
    ∀ r : SubprocResult, (run_lmp r).raised = false := by
  refine ⟨rfl, ?_⟩
  intro r
  cases r <;> rfl

end SasaLammps
